import Mathlib

/-!
epoll-executor: the epoll based reactor service and the engine that drives it.

A shallow embedding of `src/epoll_service.cpp` (flag translation, registration,
signal-set arming, `poll`, `shutdown_service`) and of the engine operations the
unit tests of `application/unit_tests/event_engine_tests.cpp` exercise.

Conventions: `uint32_t`, `int`, descriptors and durations are integers, with the
32-bit narrowing written out where the source narrows; pointers are natural
numbers with `0` for `nullptr`; a system call is an entry of a call record, and
what the kernel answers is an argument of the operation that issues the call.
-/

namespace epolling

/-! ## Constants of `<sys/epoll.h>` and `<errno.h>` (Linux) -/

def EPOLLIN : Nat := 0x001
def EPOLLPRI : Nat := 0x002
def EPOLLOUT : Nat := 0x004
def EPOLLERR : Nat := 0x008
def EPOLLHUP : Nat := 0x010
def EPOLLRDHUP : Nat := 0x2000
def EPOLLONESHOT : Nat := 0x40000000
def EPOLLET : Nat := 0x80000000
def EPOLL_CLOEXEC : Nat := 0x80000
def EEXIST : Int := 17

/-- The null pointer. -/
def nullptr : Nat := 0

/-! ## The abstract interest bitset `epolling::mode` -/

/-- Modelled from the spec: the enumeration `epolling::mode` is declared in
`event_handle.h`, which is not among the sources. The spec describes it as an
abstract bitmask with the values none, read, urgent_read, write and one_time,
combinable by bitwise union. A mode is therefore a natural number used as a
bitmask, `mode.none` is the empty mask, and the numeric values of the four
named flags, which the spec does not give, are the fields of this record. -/
structure mode_bits where
  read : Nat
  urgent_read : Nat
  write : Nat
  one_time : Nat
deriving DecidableEq, Repr

/-- An abstract mode value: a bitmask over the flags of a `mode_bits`. -/
abbrev mode := Nat

/-- The enumerator `mode::none`, the empty mask. -/
def mode.none : mode := 0

/-- The four named flags are non-empty masks that share no bit, which is what
lets them be combined by union and told apart afterwards. -/
def mode_bits.distinct (M : mode_bits) : Prop :=
  (M.read ≠ 0 ∧ M.urgent_read ≠ 0 ∧ M.write ≠ 0 ∧ M.one_time ≠ 0) ∧
  (M.read &&& M.urgent_read = 0 ∧ M.read &&& M.write = 0 ∧ M.read &&& M.one_time = 0) ∧
  (M.urgent_read &&& M.read = 0 ∧ M.urgent_read &&& M.write = 0 ∧
    M.urgent_read &&& M.one_time = 0) ∧
  (M.write &&& M.read = 0 ∧ M.write &&& M.urgent_read = 0 ∧ M.write &&& M.one_time = 0) ∧
  (M.one_time &&& M.read = 0 ∧ M.one_time &&& M.urgent_read = 0 ∧
    M.one_time &&& M.write = 0)

instance (M : mode_bits) : Decidable M.distinct := by
  unfold mode_bits.distinct; infer_instance

/-- The union of the named flags selected by four booleans; with all four
false it is `mode.none`. Every "combination of abstract interest flags" is of
this form. -/
def mode_bits.union (M : mode_bits) (r u w o : Bool) : mode :=
  (if r then M.read else mode.none) ||| (if u then M.urgent_read else mode.none) |||
  (if w then M.write else mode.none) ||| (if o then M.one_time else mode.none)

/-- The membership test the source uses throughout: `(flag & flags) != 0`. -/
def has_flag (flag flags : Nat) : Bool := (flag &&& flags) != 0

/-! ## Flag translation (`epoll_service.cpp`, anonymous namespace) -/

namespace of_mode

/-- `set_flag(epolling::mode in_flag, epolling::mode flags, uint32_t out_flag)`. -/
def set_flag (in_flag flags : mode) (out_flag : Nat) : Nat :=
  if (in_flag &&& flags) ≠ mode.none then out_flag else 0

/-- `convert_flags(epolling::mode in_flags)`: caller flags to OS flags. -/
def convert_flags (M : mode_bits) (in_flags : mode) : Nat :=
  set_flag M.read in_flags EPOLLIN |||
  set_flag M.urgent_read in_flags EPOLLPRI |||
  set_flag M.write in_flags EPOLLOUT |||
  set_flag M.one_time in_flags EPOLLONESHOT |||
  EPOLLRDHUP ||| EPOLLET

end of_mode

namespace of_uint32

/-- `set_flag(uint32_t in_flag, uint32_t flags, epolling::mode out_flag)`. -/
def set_flag (in_flag flags : Nat) (out_flag : mode) : mode :=
  if (in_flag &&& flags) ≠ 0 then out_flag else mode.none

/-- `convert_flags(uint32_t in_flags)`: OS flags to caller flags. -/
def convert_flags (M : mode_bits) (in_flags : Nat) : mode :=
  set_flag EPOLLIN in_flags M.read |||
  set_flag EPOLLPRI in_flags M.urgent_read |||
  set_flag EPOLLOUT in_flags M.write

end of_uint32

/-- `is_read(uint32_t flags)`. -/
def is_read (flags : Nat) : Bool := decide ((flags &&& (EPOLLIN ||| EPOLLPRI)) > 0)

/-- `is_write(uint32_t flags)`. -/
def is_write (flags : Nat) : Bool := decide ((flags &&& EPOLLOUT) > 0)

/-- `is_error(uint32_t flags)`. -/
def is_error (flags : Nat) : Bool :=
  decide ((flags &&& (EPOLLRDHUP ||| EPOLLHUP ||| EPOLLERR)) > 0)

/-! ## Error codes and failures -/

/-- The two `std::error_category` objects the code refers to. -/
inductive error_category
  | system
  | generic
deriving DecidableEq, Repr

/-- A `std::error_code`: a numeric value and its category. -/
structure error_code where
  value : Int
  category : error_category
deriving DecidableEq, Repr

/-- `std::error_code{}`: value zero in the system category. -/
def error_code.no_error : error_code := ⟨0, error_category.system⟩

/-- `std::make_error_code(static_cast<std::errc>(e))`. -/
def make_error_code (e : Int) : error_code := ⟨e, error_category.generic⟩

/-- `explicit operator bool` of `std::error_code`: the value is not zero. -/
def error_code.to_bool (ec : error_code) : Bool := ec.value != 0

/-- A thrown `std::system_error`: the error code and the message. -/
structure system_error where
  code : error_code
  what : String
deriving DecidableEq, Repr

/-- What the kernel answers to one system call: the return value and the value
of `errno` after the call. -/
structure os_reply where
  ret : Int
  errno : Int
deriving DecidableEq, Repr

/-- Modelled from the spec: `details_::errno_context` is declared in
`bits/exceptions.h`, which is not among the sources. Its `create_error_code`
builds the error code a failure carries from the current OS error value. -/
def errno_context.create_error_code (errno : Int) : error_code := make_error_code errno

/-- Modelled from the spec: `safe` is declared in `bits/exceptions.h`, which is
not among the sources. Given the outcome of one OS call and a descriptive
message it raises, on the failure sentinel `-1`, a failure carrying the current
OS error code and the message; otherwise it hands the return value on. -/
def safe (k : os_reply) (message : String) : Except system_error Int :=
  if k.ret = -1 then Except.error ⟨errno_context.create_error_code k.errno, message⟩
  else Except.ok k.ret

/-! ## Machine integers and durations -/

/-- Conversion of an integer to the 32-bit `int` of the system call interface
(two's complement wrap-around, the behaviour of the Linux compilers). -/
def to_int (x : Int) : Int := (x + 2 ^ 31) % 2 ^ 32 - 2 ^ 31

/-- `std::chrono::duration_cast<std::chrono::milliseconds>(timeout).count()` on
a count of nanoseconds: integer division by 1,000,000, rounding toward zero. -/
def duration_cast_milliseconds (timeout : Int) : Int := Int.tdiv timeout 1000000

/-! ## Kernel interface -/

/-- A `::epoll_event`: the event bits and the opaque token `data.ptr`. -/
structure epoll_event where
  events : Nat
  data : Nat
deriving DecidableEq, Repr

/-- The operations of `epoll_ctl`. -/
inductive ctl_op
  | EPOLL_CTL_ADD
  | EPOLL_CTL_DEL
  | EPOLL_CTL_MOD
deriving DecidableEq, Repr

/-- One system call, with its arguments. -/
inductive syscall
  | epoll_create1 (flags : Nat)
  | epoll_ctl (epfd : Int) (op : ctl_op) (fd : Int) (event : Option epoll_event)
  | epoll_wait (epfd : Int) (maxevents : Int) (timeout : Int)
  | epoll_pwait (epfd : Int) (maxevents : Int) (timeout : Int) (sigmask : Nat)
  | close (fd : Int)
deriving DecidableEq, Repr

/-- What the kernel answers to a wait call: the return value, the contents of
the caller's event buffer after the call, and `errno`. -/
structure wait_reply where
  num_events : Int
  events : List epoll_event
  errno : Int
deriving DecidableEq, Repr

/-- What this file uses of an `event_handle` (declared in `event_handle.h`):
its address, which is the token stored with the kernel, and its native
descriptor. -/
structure event_handle where
  address : Nat
  native_handle : Int
deriving DecidableEq, Repr

/-- One call `handler->on_trigger(flags)`: the handle called and the mode
passed. -/
structure on_trigger where
  handler : Nat
  flags : mode
deriving DecidableEq, Repr

/-- `do_poll`: the plain wait call when no signal set is stored, the
signal-masking one otherwise. Returns the call issued and its result. -/
def do_poll (epoll_fd : Int) (max_events : Int) (timeout : Int) (signals : Nat)
    (k : wait_reply) : syscall × Int :=
  if signals = nullptr then
    (syscall.epoll_wait epoll_fd max_events timeout, k.num_events)
  else
    (syscall.epoll_pwait epoll_fd max_events timeout signals, k.num_events)

/-- `fire_event_callbacks`: recovers the handle from the token and calls its
`on_trigger` with the translated event bits; `none` when the assertion
`handler != nullptr` fails. -/
def fire_event_callbacks (M : mode_bits) (event : epoll_event) : Option on_trigger :=
  if event.data ≠ nullptr then some ⟨event.data, of_uint32.convert_flags M event.events⟩
  else none

/-- `std::for_each` with `fire_event_callbacks` over a range of records: the
calls made, in order, and whether the range was completed (`false` when an
assertion stopped the program on the way). -/
def for_each (M : mode_bits) : List epoll_event → List on_trigger × Bool
  | [] => ([], true)
  | event :: rest =>
    match fire_event_callbacks M event with
    | none => ([], false)
    | some call => (call :: (for_each M rest).1, (for_each M rest).2)

/-! ## `epoll_service` -/

/-- The data members of `epoll_service`. -/
structure epoll_service where
  epoll_fd : Int
  signals : Nat
deriving DecidableEq, Repr

/-- The constructor: `epoll_fd(-1)`, `signals(nullptr)`, then the descriptor
returned by `epoll_create1(EPOLL_CLOEXEC)`, through `safe`. -/
def epoll_service.create (k : os_reply) : syscall × Except system_error epoll_service :=
  let self : epoll_service := ⟨-1, nullptr⟩
  (syscall.epoll_create1 EPOLL_CLOEXEC,
    match safe k "Failed to create epoll file descriptor." with
    | Except.error e => Except.error e
    | Except.ok fd => Except.ok { self with epoll_fd := fd })

/-- `epoll_service::start_monitoring`. -/
def epoll_service.start_monitoring (M : mode_bits) (self : epoll_service)
    (handle : event_handle) (flags : mode) (k : os_reply) :
    syscall × Except system_error Unit :=
  let ev : epoll_event := ⟨of_mode.convert_flags M flags, handle.address⟩
  (syscall.epoll_ctl self.epoll_fd ctl_op.EPOLL_CTL_ADD handle.native_handle (some ev),
    match safe k "Failed to register handle to epoll." with
    | Except.error e => Except.error e
    | Except.ok _ => Except.ok ())

/-- `epoll_service::update_monitoring`. -/
def epoll_service.update_monitoring (M : mode_bits) (self : epoll_service)
    (handle : event_handle) (flags : mode) (k : os_reply) :
    syscall × Except system_error Unit :=
  let ev : epoll_event := ⟨of_mode.convert_flags M flags, handle.address⟩
  (syscall.epoll_ctl self.epoll_fd ctl_op.EPOLL_CTL_MOD handle.native_handle (some ev),
    match safe k "Failed to modify handle with epoll." with
    | Except.error e => Except.error e
    | Except.ok _ => Except.ok ())

/-- `epoll_service::stop_monitoring`. -/
def epoll_service.stop_monitoring (self : epoll_service) (handle : event_handle)
    (k : os_reply) : syscall × Except system_error Unit :=
  (syscall.epoll_ctl self.epoll_fd ctl_op.EPOLL_CTL_DEL handle.native_handle none,
    match safe k "Failed to unregister handle with epoll." with
    | Except.error e => Except.error e
    | Except.ok _ => Except.ok ())

/-- `epoll_service::block_on_signals`: the state after the call and the
failure thrown, if any (after `errno = EEXIST`). -/
def epoll_service.block_on_signals (self : epoll_service) (signal_set : Nat) :
    epoll_service × Option system_error :=
  if (self.signals ≠ nullptr) ∧ (self.signals ≠ signal_set) ∧ (signal_set ≠ nullptr) then
    (self, some ⟨errno_context.create_error_code EEXIST,
      "Cannot register more than one signal manager with epoll."⟩)
  else
    ({ self with signals := signal_set }, none)

/-- What one call of `epoll_service::poll` does: the wait call issued, the
`on_trigger` calls made, in order, and the pair returned (`none` when an
assertion stopped the program before the return). -/
structure poll_run where
  wait_call : syscall
  triggers : List on_trigger
  result : Option (error_code × Bool)
deriving DecidableEq, Repr

/-- `epoll_service::poll`. The buffer of `max_events` records is the one the
kernel fills; `k.events` is its contents after the wait call, of which the
kernel reports at most `max_events` records. -/
def epoll_service.poll (M : mode_bits) (self : epoll_service) (max_events : Nat)
    (timeout : Int) (k : wait_reply) : poll_run :=
  let waited := do_poll self.epoll_fd (to_int max_events)
    (to_int (duration_cast_milliseconds timeout)) self.signals k
  let num_events := waited.2
  if 0 < num_events then
    let fired := for_each M (k.events.take num_events.toNat)
    ⟨waited.1, fired.1, if fired.2 then some (error_code.no_error, true) else none⟩
  else if 0 = num_events then
    ⟨waited.1, [], some (error_code.no_error, false)⟩
  else
    ⟨waited.1, [], some (make_error_code k.errno, false)⟩

/-- What one call of `epoll_service::shutdown_service` does: the system calls
issued, the state after the call, and the failure thrown, if any. -/
structure shutdown_run where
  calls : List syscall
  state : epoll_service
  thrown : Option system_error
deriving DecidableEq, Repr

/-- `epoll_service::shutdown_service`; `k` is what the kernel answers to
`close`, should it be called. -/
def epoll_service.shutdown_service (self : epoll_service) (k : os_reply) : shutdown_run :=
  if 0 < self.epoll_fd then
    match safe k "Failed to close epoll handle." with
    | Except.error e => ⟨[syscall.close self.epoll_fd], self, some e⟩
    | Except.ok _ => ⟨[syscall.close self.epoll_fd], { self with epoll_fd := -1 }, none⟩
  else
    ⟨[], self, none⟩

/-- The timeout argument of a wait call. -/
def syscall.timeout : syscall → Option Int
  | syscall.epoll_wait _ _ timeout => some timeout
  | syscall.epoll_pwait _ _ timeout _ => some timeout
  | _ => none

/-! ## `event_engine` -/

/-- Modelled from the spec: `event_engine` is declared in `event_engine.h`,
which is not among the sources (only its unit tests are). The spec gives it the
configured `max_events_per_poll` and two pieces of state, `running` and the
stop reason. -/
structure event_engine where
  max_events_per_poll : Nat
  is_running : Bool
  stop_reason : error_code
deriving DecidableEq, Repr

/-- Modelled from the spec: `event_engine::create` (`event_engine.h`, not among
the sources) returns an engine bound to `max_events_per_poll`, in the initial
state Stopped. -/
def event_engine.create (max_events_per_poll : Nat) : event_engine :=
  ⟨max_events_per_poll, false, error_code.no_error⟩

/-- Modelled from the spec: `event_engine::stop` (`event_engine.h`, not among
the sources) transitions to Stopped and stores the reason. -/
def event_engine.stop (self : event_engine) (reason : error_code) : event_engine :=
  { self with is_running := false, stop_reason := reason }

/-- Modelled from the spec: `event_engine::running` (`event_engine.h`, not
among the sources) returns whether the engine is in the Running state. -/
def event_engine.running (self : event_engine) : Bool := self.is_running

/-- Modelled from the spec: the reactor-service contract `event_service`
(`event_service.h`, not among the sources) as the engine sees it. `poll` takes
`max_events` and the timeout and returns an error code and whether events
fired; it runs callbacks on the calling thread, which may use the engine (call
`stop`, read `running`) and change the state `σ` of the service itself. -/
structure event_service (σ : Type) where
  poll : Nat → Int → event_engine × σ → (event_engine × σ) × (error_code × Bool)

/-- Modelled from the spec: an engine (`event_engine.h`, not among the sources)
together with the service it owns and the record of the calls of the service's
`poll` made so far, each with its two arguments. -/
structure engine_world (σ : Type) where
  engine : event_engine
  service : σ
  poll_calls : List (Nat × Int)

/-- Modelled from the spec: what `poll` and `poll_one` of `event_engine.h` (not
among the sources) share. The engine calls `poll(max_events, timeout)` of the
owned service: the call is recorded, and a non-empty error code is surfaced as
a failure. -/
def event_engine.call_service {σ : Type} (svc : event_service σ) (max_events : Nat)
    (timeout : Int) (w : engine_world σ) : engine_world σ × Except system_error Bool :=
  let r := svc.poll max_events timeout (w.engine, w.service)
  let w1 : engine_world σ := ⟨r.1.1, r.1.2, w.poll_calls ++ [(max_events, timeout)]⟩
  if r.2.1.to_bool then (w1, Except.error ⟨r.2.1, ""⟩) else (w1, Except.ok r.2.2)

/-- Modelled from the spec: `event_engine::poll` (`event_engine.h`, not among
the sources) delegates to the owned service's
`poll(max_events_per_poll, timeout)` and returns only the boolean component; a
non-empty error code from the service is surfaced as a failure. -/
def event_engine.poll {σ : Type} (svc : event_service σ) (timeout : Int)
    (w : engine_world σ) : engine_world σ × Except system_error Bool :=
  event_engine.call_service svc w.engine.max_events_per_poll timeout w

/-- Modelled from the spec: `event_engine::poll_one` (`event_engine.h`, not
among the sources) is identical to `poll` but with `max_events` fixed to 1. -/
def event_engine.poll_one {σ : Type} (svc : event_service σ) (timeout : Int)
    (w : engine_world σ) : engine_world σ × Except system_error Bool :=
  event_engine.call_service svc 1 timeout w

/-- Modelled from the spec: the loop of `event_engine::run` (`event_engine.h`,
not among the sources). While the engine is Running, `poll(timeout)`; a failure
of the service propagates at once; when the engine is Stopped the recorded
stop reason is returned. `none` when `fuel` iterations did not end the loop. -/
def event_engine.run_loop {σ : Type} (svc : event_service σ) (timeout : Int) :
    Nat → engine_world σ → Option (engine_world σ × Except system_error error_code)
  | 0, _ => none
  | fuel + 1, w =>
    if w.engine.is_running then
      match event_engine.poll svc timeout w with
      | (w1, Except.error e) => some (w1, Except.error e)
      | (w1, Except.ok _) => event_engine.run_loop svc timeout fuel w1
    else some (w, Except.ok w.engine.stop_reason)

/-- Modelled from the spec: `event_engine::run` (`event_engine.h`, not among
the sources) sets the state to Running, then repeatedly calls `poll(timeout)`
with the configured `max_events_per_poll` until a `stop` made the state
Stopped, and returns the recorded stop reason. -/
def event_engine.run {σ : Type} (svc : event_service σ) (timeout : Int) (fuel : Nat)
    (w : engine_world σ) : Option (engine_world σ × Except system_error error_code) :=
  event_engine.run_loop svc timeout fuel
    { w with engine := { w.engine with is_running := true } }

/-- The service of the tests of `run`: its `poll` reads `running()`, calls
`stop(expected)`, reads `running()` again, and returns (no error, true). Its
state is the list of the values of `running()` it has read. -/
def stopping_service (expected : error_code) : event_service (List Bool) where
  poll := fun _ _ x =>
    ((x.1.stop expected, x.2 ++ [x.1.running, (x.1.stop expected).running]),
      (error_code.no_error, true))

/-- The services of the tests of `poll` and `poll_one`: `poll` returns the
given pair and leaves the engine alone. -/
def returning_service (r : error_code × Bool) : event_service Unit where
  poll := fun _ _ x => (x, r)

/-! ## Lemmas on the flag translation -/

theorem has_flag_union (M : mode_bits) (h : M.distinct) (r u w o : Bool) :
    has_flag M.read (M.union r u w o) = r ∧
    has_flag M.urgent_read (M.union r u w o) = u ∧
    has_flag M.write (M.union r u w o) = w ∧
    has_flag M.one_time (M.union r u w o) = o := by
  obtain ⟨⟨n1, n2, n3, n4⟩, ⟨a1, a2, a3⟩, ⟨b1, b2, b3⟩, ⟨c1, c2, c3⟩, ⟨d1, d2, d3⟩⟩ := h
  cases r <;> cases u <;> cases w <;> cases o <;>
    simp [has_flag, mode_bits.union, mode.none, Nat.and_or_distrib_left, *]

/-- The first `set_flag` in terms of the membership test. -/
theorem of_mode_set_flag_eq (a m c : Nat) :
    of_mode.set_flag a m c = if has_flag a m then c else 0 := by
  simp [of_mode.set_flag, has_flag, mode.none]

theorem has_flag_none_right (a : Nat) : has_flag a mode.none = false := by
  simp [has_flag, mode.none]

/-- A mask inside `E` has none of the bits that `E` lacks. -/
theorem and_eq_zero_of_subset (c E f : Nat) (hc : c &&& E = 0) (hf : f &&& E = f) :
    c &&& f = 0 := by
  rw [← hf, Nat.and_comm f, ← Nat.and_assoc, hc, Nat.zero_and]

/-- Translating to OS flags and back keeps, of any mode, exactly the flags
`read`, `urgent_read` and `write` that the mode has. -/
theorem convert_flags_convert_flags (M : mode_bits) (m : mode) :
    of_uint32.convert_flags M (of_mode.convert_flags M m) =
      M.union (has_flag M.read m) (has_flag M.urgent_read m) (has_flag M.write m) false := by
  unfold of_uint32.convert_flags of_mode.convert_flags of_uint32.set_flag of_mode.set_flag
    mode_bits.union has_flag
  by_cases h1 : M.read &&& m = 0 <;> by_cases h2 : M.urgent_read &&& m = 0 <;>
    by_cases h3 : M.write &&& m = 0 <;> by_cases h4 : M.one_time &&& m = 0 <;>
    simp +decide [h1, h2, h3, h4, mode.none, EPOLLIN, EPOLLPRI, EPOLLOUT, EPOLLONESHOT,
      EPOLLRDHUP, EPOLLET]

/-- What `convert_flags(uint32_t)` returns is the union of the flags whose OS
bit is in the mask. -/
theorem of_uint32_convert_flags_eq_union (M : mode_bits) (f : Nat) :
    of_uint32.convert_flags M f =
      M.union (has_flag EPOLLIN f) (has_flag EPOLLPRI f) (has_flag EPOLLOUT f) false := by
  unfold of_uint32.convert_flags of_uint32.set_flag mode_bits.union has_flag
  by_cases h1 : EPOLLIN &&& f = 0 <;> by_cases h2 : EPOLLPRI &&& f = 0 <;>
    by_cases h3 : EPOLLOUT &&& f = 0 <;> simp [h1, h2, h3, mode.none]

/-- C1: for every mode `m`, translating `m` to OS flags and the result back
gives a mode in which each of `read`, `urgent_read` and `write` is set exactly
when it is set in `m`, and in which `one_time` is never set; on a union of
named flags the result is the same union without `one_time`. -/
theorem convert_flags_round_trip (M : mode_bits) (h : M.distinct) (m : mode) :
    has_flag M.read (of_uint32.convert_flags M (of_mode.convert_flags M m)) =
        has_flag M.read m ∧
    has_flag M.urgent_read (of_uint32.convert_flags M (of_mode.convert_flags M m)) =
        has_flag M.urgent_read m ∧
    has_flag M.write (of_uint32.convert_flags M (of_mode.convert_flags M m)) =
        has_flag M.write m ∧
    has_flag M.one_time (of_uint32.convert_flags M (of_mode.convert_flags M m)) = false ∧
    ∀ r u w o : Bool,
      of_uint32.convert_flags M (of_mode.convert_flags M (M.union r u w o)) =
        M.union r u w false := by
  have key := has_flag_union M h
  refine ⟨?_, ?_, ?_, ?_, ?_⟩
  · rw [convert_flags_convert_flags]; exact (key _ _ _ _).1
  · rw [convert_flags_convert_flags]; exact (key _ _ _ _).2.1
  · rw [convert_flags_convert_flags]; exact (key _ _ _ _).2.2.1
  · rw [convert_flags_convert_flags]; exact (key _ _ _ _).2.2.2
  · intro r u w o
    rw [convert_flags_convert_flags, (key r u w o).1, (key r u w o).2.1, (key r u w o).2.2.1]

/-- C1 at the layout read = 1, urgent_read = 2, write = 4, one_time = 8 and the
mode read | write | one_time, which comes back as read | write. -/
theorem convert_flags_round_trip_witness :
    (mode_bits.mk 1 2 4 8).distinct ∧
    has_flag 1 (of_uint32.convert_flags ⟨1, 2, 4, 8⟩ (of_mode.convert_flags ⟨1, 2, 4, 8⟩ 13)) =
        has_flag 1 13 ∧
    has_flag 8 (of_uint32.convert_flags ⟨1, 2, 4, 8⟩ (of_mode.convert_flags ⟨1, 2, 4, 8⟩ 13)) =
        false ∧
    of_uint32.convert_flags ⟨1, 2, 4, 8⟩
        (of_mode.convert_flags ⟨1, 2, 4, 8⟩ ((mode_bits.mk 1 2 4 8).union true false true true)) =
      (mode_bits.mk 1 2 4 8).union true false true false :=
  ⟨by decide, (convert_flags_round_trip ⟨1, 2, 4, 8⟩ (by decide) 13).1,
    (convert_flags_round_trip ⟨1, 2, 4, 8⟩ (by decide) 13).2.2.2.1,
    (convert_flags_round_trip ⟨1, 2, 4, 8⟩ (by decide) 13).2.2.2.2 true false true true⟩

/-- C4: the event mask that `start_monitoring` and `update_monitoring` hand to
`epoll_ctl` is `convert_flags(m)`, in which EPOLLIN, EPOLLPRI, EPOLLOUT and
EPOLLONESHOT are set exactly when `m` has read, urgent_read, write and
one_time, EPOLLET and EPOLLRDHUP are set whatever `m` is, and no bit outside
these six is set. -/
theorem registered_event_mask (M : mode_bits) (m : mode) (self : epoll_service)
    (handle : event_handle) (k : os_reply) :
    (self.start_monitoring M handle m k).1 =
        syscall.epoll_ctl self.epoll_fd ctl_op.EPOLL_CTL_ADD handle.native_handle
          (some ⟨of_mode.convert_flags M m, handle.address⟩) ∧
    (self.update_monitoring M handle m k).1 =
        syscall.epoll_ctl self.epoll_fd ctl_op.EPOLL_CTL_MOD handle.native_handle
          (some ⟨of_mode.convert_flags M m, handle.address⟩) ∧
    has_flag EPOLLIN (of_mode.convert_flags M m) = has_flag M.read m ∧
    has_flag EPOLLPRI (of_mode.convert_flags M m) = has_flag M.urgent_read m ∧
    has_flag EPOLLOUT (of_mode.convert_flags M m) = has_flag M.write m ∧
    has_flag EPOLLONESHOT (of_mode.convert_flags M m) = has_flag M.one_time m ∧
    has_flag EPOLLET (of_mode.convert_flags M m) = true ∧
    has_flag EPOLLRDHUP (of_mode.convert_flags M m) = true ∧
    of_mode.convert_flags M m &&&
        (EPOLLIN ||| EPOLLPRI ||| EPOLLOUT ||| EPOLLONESHOT ||| EPOLLET ||| EPOLLRDHUP) =
      of_mode.convert_flags M m ∧
    of_mode.convert_flags M mode.none = EPOLLET ||| EPOLLRDHUP := by
  refine ⟨rfl, rfl, ?_⟩
  simp only [of_mode.convert_flags, of_mode_set_flag_eq, has_flag_none_right]
  generalize has_flag M.read m = r
  generalize has_flag M.urgent_read m = u
  generalize has_flag M.write m = w
  generalize has_flag M.one_time m = o
  revert r u w o
  decide

/-- C10: the mode `fire_event_callbacks` passes to `on_trigger` for an OS event
mask `f` has read, urgent_read and write set exactly when `f` has EPOLLIN,
EPOLLPRI and EPOLLOUT, never has one_time, and has no bit outside these flags;
a non-empty mask made only of EPOLLRDHUP, EPOLLHUP and EPOLLERR satisfies
`is_error` and is delivered as `mode.none`. -/
theorem delivered_mode (M : mode_bits) (h : M.distinct) (f : Nat) :
    (∀ token : Nat, token ≠ nullptr →
      fire_event_callbacks M ⟨f, token⟩ = some ⟨token, of_uint32.convert_flags M f⟩) ∧
    has_flag M.read (of_uint32.convert_flags M f) = has_flag EPOLLIN f ∧
    has_flag M.urgent_read (of_uint32.convert_flags M f) = has_flag EPOLLPRI f ∧
    has_flag M.write (of_uint32.convert_flags M f) = has_flag EPOLLOUT f ∧
    has_flag M.one_time (of_uint32.convert_flags M f) = false ∧
    of_uint32.convert_flags M f =
      M.union (has_flag EPOLLIN f) (has_flag EPOLLPRI f) (has_flag EPOLLOUT f) false ∧
    (f ≠ 0 → f &&& (EPOLLRDHUP ||| EPOLLHUP ||| EPOLLERR) = f →
      is_error f = true ∧ of_uint32.convert_flags M f = mode.none) := by
  have key := has_flag_union M h
  refine ⟨?_, ?_, ?_, ?_, ?_, of_uint32_convert_flags_eq_union M f, ?_⟩
  · intro token ht
    simp [fire_event_callbacks, ht]
  · rw [of_uint32_convert_flags_eq_union]; exact (key _ _ _ _).1
  · rw [of_uint32_convert_flags_eq_union]; exact (key _ _ _ _).2.1
  · rw [of_uint32_convert_flags_eq_union]; exact (key _ _ _ _).2.2.1
  · rw [of_uint32_convert_flags_eq_union]; exact (key _ _ _ _).2.2.2
  · intro hne hsub
    have e1 : EPOLLIN &&& f = 0 := and_eq_zero_of_subset _ _ _ (by decide) hsub
    have e2 : EPOLLPRI &&& f = 0 := and_eq_zero_of_subset _ _ _ (by decide) hsub
    have e3 : EPOLLOUT &&& f = 0 := and_eq_zero_of_subset _ _ _ (by decide) hsub
    constructor
    · simp only [is_error, hsub, decide_eq_true_eq]
      exact Nat.pos_of_ne_zero hne
    · simp [of_uint32.convert_flags, of_uint32.set_flag, e1, e2, e3, mode.none]

/-- C10 at the layout read = 1, urgent_read = 2, write = 4, one_time = 8 and the
mask EPOLLIN | EPOLLOUT | EPOLLHUP. -/
theorem delivered_mode_witness :
    (mode_bits.mk 1 2 4 8).distinct ∧
    has_flag 1 (of_uint32.convert_flags ⟨1, 2, 4, 8⟩ 0x15) = has_flag EPOLLIN 0x15 ∧
    of_uint32.convert_flags ⟨1, 2, 4, 8⟩ 0x15 = 5 ∧
    is_error 0x2018 = true ∧ of_uint32.convert_flags ⟨1, 2, 4, 8⟩ 0x2018 = mode.none :=
  ⟨by decide, (delivered_mode ⟨1, 2, 4, 8⟩ (by decide) 0x15).2.1, by decide,
    (delivered_mode ⟨1, 2, 4, 8⟩ (by decide) 0x2018).2.2.2.2.2.2 (by decide) (by decide)⟩

/-! ## `epoll_service::poll` -/

/-- Over records whose tokens are all non-null, `for_each` calls `on_trigger`
once per record, in order, and completes. -/
theorem for_each_eq_map (M : mode_bits) (l : List epoll_event)
    (h : ∀ e ∈ l, e.data ≠ nullptr) :
    for_each M l =
      (l.map (fun e => (⟨e.data, of_uint32.convert_flags M e.events⟩ : on_trigger)), true) := by
  induction l with
  | nil => rfl
  | cons e rest ih =>
    have he : e.data ≠ nullptr := h e (List.mem_cons_self _ _)
    have hr : ∀ x ∈ rest, x.data ≠ nullptr := fun x hx => h x (List.mem_cons_of_mem _ hx)
    simp [for_each, fire_event_callbacks, he, ih hr]

/-- C2: with `n` the result of the wait call, `poll` calls `on_trigger` once
for each of the first `n` records of the buffer, in buffer order, with the
translation of the record's event bits, and returns (no error, true) when
`n > 0`; makes no call and returns (no error, false) when `n = 0`; makes no
call and returns (the error code whose value is `errno`, false) when `n < 0`.
No error is the code of value 0 in the system category; the code of a failed
wait has the value of `errno` in the generic category. -/
theorem poll_dispatch (M : mode_bits) (self : epoll_service) (max_events : Nat)
    (timeout : Int) (k : wait_reply) :
    (0 < k.num_events → k.num_events ≤ k.events.length →
      (∀ e ∈ k.events.take k.num_events.toNat, e.data ≠ nullptr) →
      (self.poll M max_events timeout k).triggers =
          (k.events.take k.num_events.toNat).map
            (fun e => (⟨e.data, of_uint32.convert_flags M e.events⟩ : on_trigger)) ∧
      ((self.poll M max_events timeout k).triggers.length : Int) = k.num_events ∧
      (self.poll M max_events timeout k).result =
        some (⟨0, error_category.system⟩, true)) ∧
    (k.num_events = 0 →
      (self.poll M max_events timeout k).triggers = [] ∧
      (self.poll M max_events timeout k).result =
        some (⟨0, error_category.system⟩, false)) ∧
    (k.num_events < 0 →
      (self.poll M max_events timeout k).triggers = [] ∧
      (self.poll M max_events timeout k).result =
        some (⟨k.errno, error_category.generic⟩, false) ∧
      ((self.poll M max_events timeout k).result).map (fun r => r.1.value) =
        some k.errno) := by
  refine ⟨?_, ?_, ?_⟩
  · intro hpos hle htok
    have hn : (do_poll self.epoll_fd (to_int max_events)
        (to_int (duration_cast_milliseconds timeout)) self.signals k).2 = k.num_events := by
      unfold do_poll; split <;> rfl
    have hlen : (k.events.take k.num_events.toNat).length = k.num_events.toNat := by
      rw [List.length_take]; omega
    simp only [epoll_service.poll, hn, hpos, if_true, for_each_eq_map M _ htok]
    refine ⟨trivial, ?_, rfl⟩
    rw [List.length_map, hlen]; omega
  · intro h0
    have hn : (do_poll self.epoll_fd (to_int max_events)
        (to_int (duration_cast_milliseconds timeout)) self.signals k).2 = 0 := by
      unfold do_poll; split <;> exact h0
    simp [epoll_service.poll, hn, error_code.no_error]
  · intro hneg
    have hn : (do_poll self.epoll_fd (to_int max_events)
        (to_int (duration_cast_milliseconds timeout)) self.signals k).2 = k.num_events := by
      unfold do_poll; split <;> rfl
    have h1 : ¬ 0 < k.num_events := by omega
    have h2 : ¬ 0 = k.num_events := by omega
    simp [epoll_service.poll, hn, h1, h2, make_error_code]

/-- C2 at four kernel answers: two ready records, none, a failed wait with
`errno` 4 (EINTR), whose code has the value 4, and a failed wait with `errno`
22 (EINVAL), whose code has the value 22. -/
theorem poll_dispatch_witness :
    ((epoll_service.mk 3 nullptr).poll ⟨1, 2, 4, 8⟩ 4 25
        ⟨2, [⟨0x001, 100⟩, ⟨0x2004, 200⟩, ⟨0, 0⟩, ⟨0, 0⟩], 0⟩).triggers =
      [⟨100, 1⟩, ⟨200, 4⟩] ∧
    ((epoll_service.mk 3 nullptr).poll ⟨1, 2, 4, 8⟩ 4 25
        ⟨2, [⟨0x001, 100⟩, ⟨0x2004, 200⟩, ⟨0, 0⟩, ⟨0, 0⟩], 0⟩).result =
      some (⟨0, error_category.system⟩, true) ∧
    ((epoll_service.mk 3 nullptr).poll ⟨1, 2, 4, 8⟩ 4 25
        ⟨0, [⟨0, 0⟩, ⟨0, 0⟩, ⟨0, 0⟩, ⟨0, 0⟩], 0⟩).result =
      some (⟨0, error_category.system⟩, false) ∧
    ((epoll_service.mk 3 nullptr).poll ⟨1, 2, 4, 8⟩ 4 25
        ⟨-1, [⟨0, 0⟩, ⟨0, 0⟩, ⟨0, 0⟩, ⟨0, 0⟩], 4⟩).result =
      some (⟨4, error_category.generic⟩, false) ∧
    (((epoll_service.mk 3 nullptr).poll ⟨1, 2, 4, 8⟩ 4 25
        ⟨-1, [⟨0, 0⟩, ⟨0, 0⟩, ⟨0, 0⟩, ⟨0, 0⟩], 4⟩).result).map (fun r => r.1.value) =
      some 4 ∧
    (((epoll_service.mk 3 nullptr).poll ⟨1, 2, 4, 8⟩ 0 25
        ⟨-1, [], 22⟩).result).map (fun r => r.1.value) =
      some 22 :=
  ⟨((poll_dispatch ⟨1, 2, 4, 8⟩ ⟨3, nullptr⟩ 4 25
        ⟨2, [⟨0x001, 100⟩, ⟨0x2004, 200⟩, ⟨0, 0⟩, ⟨0, 0⟩], 0⟩).1
      (by decide) (by decide) (by decide)).1,
    ((poll_dispatch ⟨1, 2, 4, 8⟩ ⟨3, nullptr⟩ 4 25
        ⟨2, [⟨0x001, 100⟩, ⟨0x2004, 200⟩, ⟨0, 0⟩, ⟨0, 0⟩], 0⟩).1
      (by decide) (by decide) (by decide)).2.2,
    ((poll_dispatch ⟨1, 2, 4, 8⟩ ⟨3, nullptr⟩ 4 25
        ⟨0, [⟨0, 0⟩, ⟨0, 0⟩, ⟨0, 0⟩, ⟨0, 0⟩], 0⟩).2.1 rfl).2,
    ((poll_dispatch ⟨1, 2, 4, 8⟩ ⟨3, nullptr⟩ 4 25
        ⟨-1, [⟨0, 0⟩, ⟨0, 0⟩, ⟨0, 0⟩, ⟨0, 0⟩], 4⟩).2.2 (by decide)).2.1,
    ((poll_dispatch ⟨1, 2, 4, 8⟩ ⟨3, nullptr⟩ 4 25
        ⟨-1, [⟨0, 0⟩, ⟨0, 0⟩, ⟨0, 0⟩, ⟨0, 0⟩], 4⟩).2.2 (by decide)).2.2,
    ((poll_dispatch ⟨1, 2, 4, 8⟩ ⟨3, nullptr⟩ 0 25 ⟨-1, [], 22⟩).2.2 (by decide)).2.2⟩

/-! ## `epoll_service::block_on_signals` -/

/-- C3: with `s` the stored signal-set pointer, `block_on_signals(p)` throws
exactly when `s` is non-null, `p` is non-null and `p` differs from `s`; what it
throws carries the error value EEXIST, and the stored pointer is then still
`s`; in every other case nothing is thrown and the stored pointer becomes `p`,
the descriptor being untouched either way. -/
theorem block_on_signals_conflict (self : epoll_service) (p : Nat) :
    (((self.block_on_signals p).2).isSome = true ↔
      (self.signals ≠ nullptr ∧ p ≠ nullptr ∧ p ≠ self.signals)) ∧
    ((self.signals ≠ nullptr ∧ p ≠ nullptr ∧ p ≠ self.signals) →
      (self.block_on_signals p).1 = self ∧
      ((self.block_on_signals p).2).map (fun e => e.code.value) = some EEXIST) ∧
    (¬ (self.signals ≠ nullptr ∧ p ≠ nullptr ∧ p ≠ self.signals) →
      (self.block_on_signals p).2 = none ∧
      (self.block_on_signals p).1 = ⟨self.epoll_fd, p⟩) := by
  unfold epoll_service.block_on_signals
  by_cases h : (self.signals ≠ nullptr) ∧ (self.signals ≠ p) ∧ (p ≠ nullptr)
  · have hc : self.signals ≠ nullptr ∧ p ≠ nullptr ∧ p ≠ self.signals :=
      ⟨h.1, h.2.2, fun e => h.2.1 e.symm⟩
    rw [if_pos h]
    exact ⟨⟨fun _ => hc, fun _ => rfl⟩, fun _ => ⟨rfl, rfl⟩, fun hn => absurd hc hn⟩
  · have hc : ¬ (self.signals ≠ nullptr ∧ p ≠ nullptr ∧ p ≠ self.signals) :=
      fun c => h ⟨c.1, fun e => c.2.2 e.symm, c.2.1⟩
    rw [if_neg h]
    refine ⟨⟨fun x => ?_, fun c => absurd c hc⟩, fun c => absurd c hc, fun _ => ⟨rfl, rfl⟩⟩
    simp at x

/-- C3 at a second set (address 200) while a first (address 100) is stored, at
the same set again, and at null. -/
theorem block_on_signals_conflict_witness :
    ((epoll_service.mk 3 100).block_on_signals 200).1 = ⟨3, 100⟩ ∧
    (((epoll_service.mk 3 100).block_on_signals 200).2).map (fun e => e.code.value) =
      some EEXIST ∧
    ((epoll_service.mk 3 100).block_on_signals 100).2 = none ∧
    ((epoll_service.mk 3 100).block_on_signals 100).1 = ⟨3, 100⟩ ∧
    ((epoll_service.mk 3 100).block_on_signals nullptr).2 = none ∧
    ((epoll_service.mk 3 100).block_on_signals nullptr).1 = ⟨3, nullptr⟩ :=
  ⟨((block_on_signals_conflict ⟨3, 100⟩ 200).2.1 (by decide)).1,
    ((block_on_signals_conflict ⟨3, 100⟩ 200).2.1 (by decide)).2,
    ((block_on_signals_conflict ⟨3, 100⟩ 100).2.2 (by decide)).1,
    ((block_on_signals_conflict ⟨3, 100⟩ 100).2.2 (by decide)).2,
    ((block_on_signals_conflict ⟨3, 100⟩ nullptr).2.2 (by decide)).1,
    ((block_on_signals_conflict ⟨3, 100⟩ nullptr).2.2 (by decide)).2⟩

/-! ## `epoll_service::shutdown_service` -/

/-- On a service that holds a descriptor greater than zero, and when `close`
succeeds, `shutdown_service` issues one `close` on that descriptor and sets
`epoll_fd` to -1, after which a further call issues nothing and changes
nothing. -/
theorem shutdown_service_positive_descriptor (self : epoll_service) (k : os_reply)
    (hfd : 0 < self.epoll_fd) (hk : k.ret ≠ -1) :
    (self.shutdown_service k).calls = [syscall.close self.epoll_fd] ∧
    (self.shutdown_service k).state = ⟨-1, self.signals⟩ ∧
    (self.shutdown_service k).thrown = none ∧
    ∀ k2 : os_reply, (self.shutdown_service k).state.shutdown_service k2 =
      ⟨[], (self.shutdown_service k).state, none⟩ := by
  have hs : self.shutdown_service k =
      ⟨[syscall.close self.epoll_fd], ⟨-1, self.signals⟩, none⟩ := by
    simp [epoll_service.shutdown_service, hfd, safe, hk]
  rw [hs]
  refine ⟨rfl, rfl, rfl, fun k2 => ?_⟩
  simp [epoll_service.shutdown_service]

/-- C5 (where the code departs from it): the constructor stores descriptor 0
when `epoll_create1` returns 0, and on a service that holds descriptor 0
`shutdown_service` issues no `close`, throws nothing and leaves `epoll_fd` at
0, whatever the stored signal set and whatever `close` would have answered. -/
theorem shutdown_service_descriptor_zero (signals : Nat) (k : os_reply) :
    (epoll_service.create ⟨0, 0⟩).2 = Except.ok ⟨0, nullptr⟩ ∧
    ((epoll_service.mk 0 signals).shutdown_service k).calls = [] ∧
    ((epoll_service.mk 0 signals).shutdown_service k).state = ⟨0, signals⟩ ∧
    ((epoll_service.mk 0 signals).shutdown_service k).thrown = none := by
  refine ⟨rfl, ?_, ?_, ?_⟩ <;> simp [epoll_service.shutdown_service]

/-! ## The timeout handed to the wait call -/

/-- Narrowing to `int` leaves a value of the `int` range as it is. -/
theorem to_int_of_fits (x : Int) (h : -2147483648 ≤ x ∧ x ≤ 2147483647) : to_int x = x := by
  unfold to_int
  norm_num
  omega

/-- The wait call `poll` issues carries the narrowed millisecond count. -/
theorem poll_wait_call_timeout (M : mode_bits) (self : epoll_service) (max_events : Nat)
    (t : Int) (k : wait_reply) :
    (self.poll M max_events t k).wait_call.timeout =
      some (to_int (duration_cast_milliseconds t)) := by
  unfold epoll_service.poll do_poll
  by_cases hs : self.signals = nullptr <;> simp only [hs, if_true, if_false] <;>
    split_ifs <;> rfl

/-- C6 (as stated, refuted): for the timeout of 2,147,483,648,000,000 ns the
millisecond count is 2,147,483,648, and the wait call is handed
-2,147,483,648. -/
theorem poll_timeout_wraps :
    Int.tdiv 2147483648000000 1000000 = 2147483648 ∧
    ((epoll_service.mk 3 nullptr).poll ⟨1, 2, 4, 8⟩ 50 2147483648000000
        ⟨0, [], 0⟩).wait_call.timeout = some (-2147483648) ∧
    ((epoll_service.mk 3 nullptr).poll ⟨1, 2, 4, 8⟩ 50 2147483648000000
        ⟨0, [], 0⟩).wait_call.timeout ≠ some (Int.tdiv 2147483648000000 1000000) := by
  decide

/-- C6 (amended): for every nanosecond timeout `t` whose count of whole
milliseconds fits the `int` of the wait call, the timeout argument handed to
the wait call is `t / 1,000,000` rounded toward zero. -/
theorem poll_timeout_milliseconds (M : mode_bits) (self : epoll_service) (max_events : Nat)
    (t : Int) (k : wait_reply)
    (h : -2147483648 ≤ Int.tdiv t 1000000 ∧ Int.tdiv t 1000000 ≤ 2147483647) :
    (self.poll M max_events t k).wait_call.timeout = some (Int.tdiv t 1000000) := by
  rw [poll_wait_call_timeout, duration_cast_milliseconds, to_int_of_fits _ h]

/-- C6 (amended) at the timeout of the tests, 25 ns, which becomes 0 ms, and at
-1,999,999 ns, which becomes -1 ms. -/
theorem poll_timeout_milliseconds_witness :
    Int.tdiv 25 1000000 = 0 ∧
    ((epoll_service.mk 3 nullptr).poll ⟨1, 2, 4, 8⟩ 50 25 ⟨0, [], 0⟩).wait_call.timeout =
      some (Int.tdiv 25 1000000) ∧
    Int.tdiv (-1999999) 1000000 = -1 ∧
    ((epoll_service.mk 3 nullptr).poll ⟨1, 2, 4, 8⟩ 50 (-1999999) ⟨0, [], 0⟩).wait_call.timeout =
      some (Int.tdiv (-1999999) 1000000) :=
  ⟨by decide,
    poll_timeout_milliseconds ⟨1, 2, 4, 8⟩ ⟨3, nullptr⟩ 50 25 ⟨0, [], 0⟩ (by decide),
    by decide,
    poll_timeout_milliseconds ⟨1, 2, 4, 8⟩ ⟨3, nullptr⟩ 50 (-1999999) ⟨0, [], 0⟩ (by decide)⟩

/-! ## `event_engine` -/

/-- When the service answers (no error, `b`), the engine's call of its `poll`
yields `b` and is recorded once, with the arguments given. -/
theorem call_service_of_no_error {σ : Type} (svc : event_service σ) (n : Nat) (t : Int)
    (w : engine_world σ) (b : Bool)
    (h : (svc.poll n t (w.engine, w.service)).2 = (error_code.no_error, b)) :
    (event_engine.call_service svc n t w).2 = Except.ok b ∧
    (event_engine.call_service svc n t w).1.poll_calls = w.poll_calls ++ [(n, t)] := by
  have h1 : (svc.poll n t (w.engine, w.service)).2.1 = error_code.no_error := by rw [h]
  have h2 : (svc.poll n t (w.engine, w.service)).2.2 = b := by rw [h]
  simp [event_engine.call_service, h1, h2, error_code.to_bool, error_code.no_error]

/-- C7: for every configured `max_events_per_poll` `n`, timeout `t` and boolean
`b`, when the owned service's `poll` returns (no error, `b`), the engine's
`poll(t)` calls the service's `poll` once, with the arguments (`n`, `t`), and
returns `b`. -/
theorem engine_poll_passes_through {σ : Type} (svc : event_service σ) (w : engine_world σ)
    (t : Int) (b : Bool)
    (h : (svc.poll w.engine.max_events_per_poll t (w.engine, w.service)).2 =
      (error_code.no_error, b)) :
    (event_engine.poll svc t w).2 = Except.ok b ∧
    (event_engine.poll svc t w).1.poll_calls =
      w.poll_calls ++ [(w.engine.max_events_per_poll, t)] :=
  call_service_of_no_error svc w.engine.max_events_per_poll t w b h

/-- C7 at the scenario of the tests: 50 events per poll, 25 ns, and a service
that reports (no error, true). -/
theorem engine_poll_passes_through_witness :
    (event_engine.poll (returning_service (error_code.no_error, true)) 25
        ⟨event_engine.create 50, (), []⟩).2 = Except.ok true ∧
    (event_engine.poll (returning_service (error_code.no_error, true)) 25
        ⟨event_engine.create 50, (), []⟩).1.poll_calls = [(50, 25)] :=
  engine_poll_passes_through (returning_service (error_code.no_error, true))
    ⟨event_engine.create 50, (), []⟩ 25 true rfl

/-- C8: for every configured `max_events_per_poll`, timeout `t` and boolean
`b`, when the owned service's `poll` returns (no error, `b`), the engine's
`poll_one(t)` calls the service's `poll` once, with `max_events` 1 and the
timeout `t`, and returns `b`. -/
theorem engine_poll_one_requests_one {σ : Type} (svc : event_service σ) (w : engine_world σ)
    (t : Int) (b : Bool)
    (h : (svc.poll 1 t (w.engine, w.service)).2 = (error_code.no_error, b)) :
    (event_engine.poll_one svc t w).2 = Except.ok b ∧
    (event_engine.poll_one svc t w).1.poll_calls = w.poll_calls ++ [(1, t)] :=
  call_service_of_no_error svc 1 t w b h

/-- C8 at the scenario of the tests: 50 events per poll, 25 ns, and a service
that reports (no error, false). -/
theorem engine_poll_one_requests_one_witness :
    (event_engine.poll_one (returning_service (error_code.no_error, false)) 25
        ⟨event_engine.create 50, (), []⟩).2 = Except.ok false ∧
    (event_engine.poll_one (returning_service (error_code.no_error, false)) 25
        ⟨event_engine.create 50, (), []⟩).1.poll_calls = [(1, 25)] :=
  engine_poll_one_requests_one (returning_service (error_code.no_error, false))
    ⟨event_engine.create 50, (), []⟩ 25 false rfl

/-- C9: for every stop reason `E` and timeout `t`, on an engine whose service's
`poll` calls `stop(E)` and returns (no error, true), `run(t)` returns (any fuel
of two or more is enough) after one call of the service's `poll`, made with
the configured `max_events_per_poll` and `t`; it returns `E`; `running()` read
inside that call was true before `stop` and false after it; and `running()` is
false after `run` has returned. -/
theorem run_returns_stop_reason (E : error_code) (t : Int) (engine : event_engine)
    (seen : List Bool) (calls : List (Nat × Int)) (fuel : Nat) :
    (event_engine.run (stopping_service E) t (fuel + 2) ⟨engine, seen, calls⟩).map
        (fun r => r.2) = some (Except.ok E) ∧
    (event_engine.run (stopping_service E) t (fuel + 2) ⟨engine, seen, calls⟩).map
        (fun r => r.1.poll_calls) = some (calls ++ [(engine.max_events_per_poll, t)]) ∧
    (event_engine.run (stopping_service E) t (fuel + 2) ⟨engine, seen, calls⟩).map
        (fun r => r.1.service) = some (seen ++ [true, false]) ∧
    (event_engine.run (stopping_service E) t (fuel + 2) ⟨engine, seen, calls⟩).map
        (fun r => r.1.engine.running) = some false := by
  have hrun : event_engine.run (stopping_service E) t (fuel + 2) ⟨engine, seen, calls⟩ =
      some (⟨⟨engine.max_events_per_poll, false, E⟩, seen ++ [true, false],
        calls ++ [(engine.max_events_per_poll, t)]⟩, Except.ok E) := by
    simp [event_engine.run, event_engine.run_loop, event_engine.poll,
      event_engine.call_service, stopping_service, event_engine.stop, event_engine.running,
      error_code.to_bool, error_code.no_error]
  rw [hrun]
  exact ⟨rfl, rfl, rfl, rfl⟩

end epolling
